import Mathlib

/-!
Shallow embedding of the student-records API core (NestJS / TypeORM service
code) and verification of the frozen specification claims.

Embedded components:
  - the role guard of the access policy (user-role.guard.ts);
  - the Student entity lifecycle hooks deriving the nickname (student entity);
  - the User entity email-normalization hook (user.entity.ts);
  - the auth service register and login operations (auth.service.ts);
  - the students service create / update / deleteAllStudents operations and
    their transactional error handling (students.service.ts);
  - the seed controller and service (seed controller, seed.service.ts).

Stateful ORM code is embedded as explicit state passing over record types;
the SQL transaction of the update operation is embedded as a durable state
that changes only at commit, with injectable failures at each fallible step.
-/

set_option linter.unusedVariables false

/-! ## JavaScript string primitives used by the entity hooks -/

/-- JS String.toLowerCase, embedded at the character-list level so that the
kernel can evaluate it (String.toLower iterates over byte positions by
well-founded recursion, which the kernel cannot reduce). -/
def jsToLowerCase (s : String) : String :=
  String.mk (s.data.map Char.toLower)

/-- JS String.trim: drop whitespace from both ends, at the character-list
level for the same reason as jsToLowerCase. -/
def jsTrim (s : String) : String :=
  String.mk (((s.data.dropWhile Char.isWhitespace).reverse.dropWhile
    Char.isWhitespace).reverse)

/-- JS String.replace with a plain-string pattern replaces only the FIRST
occurrence.  The hooks call nickname.replace(" ", "_"); this is the list-level
worker replacing the first space by an underscore. -/
def jsReplaceFirstSpaceAux : List Char → List Char
  | [] => []
  | c :: cs => if c = ' ' then '_' :: cs else c :: jsReplaceFirstSpaceAux cs

/-- JS s.replace(" ", "_"): first space only. -/
def jsReplaceFirstSpace (s : String) : String :=
  String.mk (jsReplaceFirstSpaceAux s.data)

/-- JS string concatenation with a possibly-undefined number: `s + this.age`
prints the number, or the text undefined when age is absent. -/
def jsNumConcat (age : Option Nat) : String :=
  match age with
  | some n => toString n
  | none => "undefined"

/-! ## Access policy guard (user-role.guard.ts) -/

/-- UserRoleGuard.canActivate as implemented: it reads the route metadata
(validRoles) and the request, logs, and returns true unconditionally.  The
roles of the authenticated user are never consulted. -/
def UserRoleGuard.canActivate (validRoles : Option (List String))
    (userRoles : List String) : Bool :=
  true

/-- Role gate as documented in the guard's own comment block (and in the
spec): absent or empty permitted set passes; otherwise access requires that
the user's role set meets the permitted set. -/
def roleGateDocumented (validRoles : Option (List String))
    (userRoles : List String) : Bool :=
  match validRoles with
  | none => true
  | some rs => rs.isEmpty || rs.any (fun r => userRoles.contains r)

/-! ## Student entity nickname hooks (student entity, BeforeInsert / BeforeUpdate) -/

/-- Student.checkNicknameInsert: if no nickname was supplied (the create DTO
has no nickname field, so this is the always-taken branch), the name is used
as base; the base is lowercased, its first space replaced by an underscore,
and the age appended. -/
def Student.checkNicknameInsert (name : String) (nickname : Option String)
    (age : Option Nat) : String :=
  let base := match nickname with
    | none => name
    | some s => if s = "" then name else s
  jsReplaceFirstSpace (jsToLowerCase base) ++ jsNumConcat age

/-- Student.checkNicknameUpdate: lowercases the CURRENT nickname, replaces
its first space by an underscore, and appends the age.  The name is not
consulted at all. -/
def Student.checkNicknameUpdate (nickname : String) (age : Option Nat) : String :=
  jsReplaceFirstSpace (jsToLowerCase nickname) ++ jsNumConcat age

/-- Nickname derivation as the claim states it: the merged name lowercased,
spaces replaced by underscores, age appended.  This follows the words of the
specification for comparison with the source hooks above. -/
def claimedNicknameDerivation (name : String) (age : Option Nat) : String :=
  String.mk ((jsToLowerCase name).data.map (fun c => if c = ' ' then '_' else c))
    ++ jsNumConcat age

/-! ## Record repository data model (student entity, grade.entity.ts)

Rows of the student and grade tables.  UUIDs are embedded as natural numbers
drawn from per-table counters held in the database state; the counters model
generated primary keys, so a freshly generated id never collides with an id
already present (stated, where needed, as a freshness hypothesis). -/

/-- One row of the grade table: subject, grade value (stored as text in the
schema), and the studentId foreign key (ManyToOne, onDelete CASCADE). -/
structure GradeRow where
  id : Nat
  subject : String
  grade : String
  studentId : Nat
deriving Repr, DecidableEq

/-- One row of the student table. -/
structure StudentRow where
  id : Nat
  name : String
  age : Option Nat
  email : String
  nickname : String
  gender : String
  subjects : List String
deriving Repr, DecidableEq

/-- Durable database state for the students module, with the id counters of
the two tables. -/
structure StudentsDB where
  students : List StudentRow
  grades : List GradeRow
  nextStudentId : Nat
  nextGradeId : Nat
deriving Repr, DecidableEq

/-- Grade input as it appears in the create / update DTO grades arrays. -/
structure GradeInput where
  subject : String
  grade : String
deriving Repr, DecidableEq

/-- CreateStudentDto: the validated create input.  The DTO declares no
nickname field, and the global validation pipe strips or rejects unknown
fields, so no nickname ever reaches the service. -/
structure CreateStudentDto where
  name : String
  age : Option Nat
  email : String
  gender : String
  subjects : List String
  grades : Option (List GradeInput)
deriving Repr, DecidableEq

/-- UpdateStudentDto: PartialType of the create DTO — every field optional;
absent fields are simply not spread into the preloaded entity. -/
structure UpdateStudentDto where
  name : Option String
  age : Option Nat
  email : Option String
  gender : Option String
  subjects : Option (List String)
  grades : Option (List GradeInput)
deriving Repr, DecidableEq

/-- The grade rows owned by a given student id (grade.studentId = id). -/
def ownedGrades (db : StudentsDB) (id : Nat) : List GradeRow :=
  db.grades.filter (fun g => g.studentId == id)

/-- Build the fresh GradeRow list for a student from the supplied grade
inputs, assigning generated ids from the given counter onward. -/
def assignGradeIds : Nat → Nat → List GradeInput → List GradeRow
  | _, _, [] => []
  | nid, sid, g :: gs => ⟨nid, g.subject, g.grade, sid⟩ :: assignGradeIds (nid + 1) sid gs

/-- Repository.preload field merge: fields present in the DTO overwrite the
loaded row, absent ones are left unchanged.  The nickname is untouched here
(no nickname field in the DTO); it is recomputed by the BeforeUpdate hook at
save time. -/
def mergeStudent (s : StudentRow) (dto : UpdateStudentDto) : StudentRow :=
  { s with
    name := dto.name.getD s.name
    age := match dto.age with | some a => some a | none => s.age
    email := dto.email.getD s.email
    gender := dto.gender.getD s.gender
    subjects := dto.subjects.getD s.subjects }

/-! ## Error model and failure injection for the update transaction -/

/-- Persistence-layer error: a Postgres unique-constraint violation (code
23505, carrying the constraint detail string) or any other error. -/
inductive DbError where
  | uniqueViolation (detail : String)
  | other (msg : String)
deriving Repr, DecidableEq

/-- Which steps of the update transaction are made to fail in a given run.
failDelete fires at the grade-delete step (reached only when a grades list
was supplied), failSave at queryRunner.manager.save, failCommit at
commitTransaction, and failRollback makes rollbackTransaction itself throw. -/
structure FailSpec where
  failDelete : Option DbError
  failSave : Option DbError
  failCommit : Option DbError
  failRollback : Bool
deriving Repr, DecidableEq

/-- A run with no injected failure. -/
def noFail : FailSpec := ⟨none, none, none, false⟩

/-- The first error the update run encounters, in the order the code reaches
the fallible steps: grade delete (only when grades were supplied), then
save, then commit. -/
def firstInjected (dto : UpdateStudentDto) (fs : FailSpec) : Option DbError :=
  match dto.grades, fs.failDelete with
  | some _, some e => some e
  | _, _ =>
    match fs.failSave with
    | some e => some e
    | none => fs.failCommit

/-- What the update call yields to its caller. -/
inductive UpdateOutcome where
  | ok (s : StudentRow) (gs : List GradeRow)
  | notFound (id : Nat)
  | thrownInternal (detail : String)
  | silent
  | thrownRollback
deriving Repr, DecidableEq

/-- Result of an update run: the durable database afterwards, the outcome
seen by the caller, whether a query runner was acquired, and whether it was
released. -/
structure UpdateResult where
  db : StudentsDB
  outcome : UpdateOutcome
  acquired : Bool
  released : Bool
deriving Repr, DecidableEq

/-- StudentsService.handleException: the error is logged; only a unique
violation (Postgres code 23505) is rethrown, as an
InternalServerErrorException carrying error.detail.  Any other error is
swallowed and the enclosing method returns undefined. -/
def StudentsService.handleExceptionOutcome (e : DbError) : UpdateOutcome :=
  match e with
  | .uniqueViolation d => .thrownInternal d
  | .other _ => .silent

/-- The catch block of StudentsService.update: rollbackTransaction, then
release, then handleException.  If the rollback itself throws, the release
on the following line is never reached and the rollback error propagates;
durable state is unchanged either way (nothing was committed). -/
def StudentsService.catchPath (db : StudentsDB) (fs : FailSpec) (e : DbError) :
    UpdateResult :=
  if fs.failRollback then
    ⟨db, .thrownRollback, true, false⟩
  else
    ⟨db, StudentsService.handleExceptionOutcome e, true, true⟩

/-- StudentsService.update: preload and merge; NotFound if the id is absent;
otherwise open a transaction (create query runner, connect, start).  Inside
it: if a grades list was supplied, delete every grade row owned by the
student and build fresh rows from the inputs; save the merged student (the
BeforeUpdate hook recomputes the nickname; cascade persists the attached
fresh grade rows); commit; release; reload and return.  Durable state
changes only at the commit step; any earlier failure lands in catchPath. -/
def StudentsService.update (db : StudentsDB) (id : Nat) (dto : UpdateStudentDto)
    (fs : FailSpec) : UpdateResult :=
  match db.students.find? (fun s => s.id == id) with
  | none => ⟨db, .notFound id, false, false⟩
  | some s0 =>
    let merged := mergeStudent s0 dto
    match dto.grades, fs.failDelete with
    | some _, some e => StudentsService.catchPath db fs e
    | _, _ =>
      let wdb : StudentsDB :=
        match dto.grades with
        | some _ => { db with grades := db.grades.filter (fun g => g.studentId != id) }
        | none => db
      match fs.failSave with
      | some e => StudentsService.catchPath db fs e
      | none =>
        let saved : StudentRow :=
          { merged with nickname := Student.checkNicknameUpdate merged.nickname merged.age }
        let newRows : List GradeRow :=
          match dto.grades with
          | some gs => assignGradeIds wdb.nextGradeId id gs
          | none => []
        let wdb2 : StudentsDB :=
          { wdb with
            students := wdb.students.map (fun s => if s.id == id then saved else s)
            grades := wdb.grades ++ newRows
            nextGradeId := wdb.nextGradeId + newRows.length }
        match fs.failCommit with
        | some e => StudentsService.catchPath db fs e
        | none => ⟨wdb2, .ok saved (ownedGrades wdb2 id), true, true⟩

/-- StudentsService.create: build the student row (the BeforeInsert hook
derives the nickname from the name and age — the DTO carries no nickname),
build grade rows from the grades inputs, save everything (cascade). -/
def StudentsService.create (db : StudentsDB) (dto : CreateStudentDto) :
    StudentsDB × StudentRow :=
  let sid := db.nextStudentId
  let nickname := Student.checkNicknameInsert dto.name none dto.age
  let row : StudentRow :=
    ⟨sid, dto.name, dto.age, dto.email, nickname, dto.gender, dto.subjects⟩
  let gs := dto.grades.getD []
  let newRows := assignGradeIds db.nextGradeId sid gs
  (⟨db.students ++ [row], db.grades ++ newRows, sid + 1,
    db.nextGradeId + newRows.length⟩, row)

/-! ## Auth data model (user.entity.ts, auth.service.ts) -/

/-- One row of the user table.  The password column holds the bcrypt hash;
it is an Option because the service deletes the field from in-memory objects
before returning them. -/
structure UserRow where
  id : Nat
  email : String
  fullName : String
  password : Option String
  isActive : Bool
  roles : List String
deriving Repr, DecidableEq

/-- Durable database state for the auth module. -/
structure AuthDB where
  users : List UserRow
  nextUserId : Nat
deriving Repr, DecidableEq

/-- User.checkFieldsBeforeChanges (BeforeInsert / BeforeUpdate hook):
this.email = this.email.toLowerCase().trim(). -/
def User.checkFieldsBeforeChanges (email : String) : String :=
  jsTrim (jsToLowerCase email)

/-- CreateUserDto: validated register input. -/
structure CreateUserDto where
  email : String
  fullName : String
  password : String
deriving Repr, DecidableEq

/-- JWT payload written by getJwtToken: subject id and email. -/
structure Jwt where
  id : Nat
  email : String
deriving Repr, DecidableEq

/-- A signed token.  Signing with the process-wide secret is embedded as an
injective wrapper around the payload. -/
structure SignedToken where
  payload : Jwt
deriving Repr, DecidableEq

/-- AuthService.getJwtToken: sign the payload. -/
def AuthService.getJwtToken (p : Jwt) : SignedToken := ⟨p⟩

/-- The detail string Postgres attaches to a unique-constraint violation on
the email column. -/
def pgDuplicateDetail (email : String) : String :=
  "Key (email)=(" ++ email ++ ") already exists."

/-- What the register call yields to its caller. -/
inductive RegisterOutcome where
  | ok (u : UserRow) (token : SignedToken)
  | thrownInternal (detail : String)
  | silent
deriving Repr, DecidableEq

/-- AuthService.handleException: log the error; rethrow only a unique
violation, as an InternalServerErrorException carrying error.detail; any
other error is swallowed (the enclosing method returns undefined). -/
def AuthService.handleExceptionOutcome (e : DbError) : RegisterOutcome :=
  match e with
  | .uniqueViolation d => .thrownInternal d
  | .other _ => .silent

/-- AuthService.create (register): build the user with the hashed password
(hashing is passed in as the hashFn collaborator); save — the BeforeInsert
hook normalizes the email first, and the unique constraint on email rejects
a duplicate of the normalized value with a 23505 error that lands in the
catch block; on success delete the in-memory password and return the user
together with a signed token. -/
def AuthService.create (hashFn : String → String) (db : AuthDB)
    (dto : CreateUserDto) : AuthDB × RegisterOutcome :=
  let norm := User.checkFieldsBeforeChanges dto.email
  if db.users.any (fun u => u.email == norm) then
    (db, AuthService.handleExceptionOutcome (.uniqueViolation (pgDuplicateDetail norm)))
  else
    let u : UserRow :=
      ⟨db.nextUserId, norm, dto.fullName, some (hashFn dto.password), true, ["teacher"]⟩
    (⟨db.users ++ [u], db.nextUserId + 1⟩,
      .ok { u with password := none } (AuthService.getJwtToken ⟨u.id, u.email⟩))

/-- The fields of the user row the login query selects: id, email, password. -/
structure LoginView where
  id : Nat
  email : String
  password : Option String
deriving Repr, DecidableEq

/-- What the login call yields to its caller. -/
inductive LoginOutcome where
  | ok (v : LoginView) (token : SignedToken)
  | notFound (msg : String)
  | unauthorized (msg : String)
deriving Repr, DecidableEq

/-- AuthService.login: findOne by the supplied email verbatim (no
normalization is applied to it), selecting id, email and password; NotFound
if absent; compare the supplied password against the stored hash with the
verify collaborator (bcrypt.compareSync); Unauthorized on mismatch; on
success delete the password field and return the user with a fresh token. -/
def AuthService.login (verify : String → String → Bool) (db : AuthDB)
    (email pwd : String) : LoginOutcome :=
  match db.users.find? (fun u => u.email == email) with
  | none => .notFound ("User " ++ email ++ " not found")
  | some u =>
    let fetched : LoginView := ⟨u.id, u.email, u.password⟩
    if ! verify pwd (fetched.password.getD "") then
      .unauthorized "Email or password incorrect"
    else
      .ok { fetched with password := none } (AuthService.getJwtToken ⟨u.id, u.email⟩)

/-! ## Seed endpoint (seed controller, seed.service.ts) -/

/-- The guards NestJS can attach to a route in this application. -/
inductive RouteGuard where
  | authGuard
  | userRoleGuard
deriving Repr, DecidableEq

/-- Request context as the guards see it: whether a valid bearer token
resolved to an active account, and that account's roles. -/
structure ReqCtx where
  authenticated : Bool
  userRoles : List String
deriving Repr, DecidableEq

/-- Whether one guard lets the request through.  The role guard is the
always-allow stub canActivate with the route's metadata. -/
def guardPasses (validRoles : Option (List String)) (req : ReqCtx) :
    RouteGuard → Bool
  | .authGuard => req.authenticated
  | .userRoleGuard => UserRoleGuard.canActivate validRoles req.userRoles

/-- A request reaches the handler when every guard declared on the route
passes. -/
def routeAdmits (guards : List RouteGuard) (validRoles : Option (List String))
    (req : ReqCtx) : Bool :=
  guards.all (guardPasses validRoles req)

/-- Guard list of the seed route: the controller declares @Get() with no
UseGuards and no metadata at all. -/
def seedRouteGuards : List RouteGuard := []

/-- Role metadata of the seed route: none declared. -/
def seedRouteRoles : Option (List String) := none

/-- StudentsService.deleteAllStudents: DELETE FROM student with an empty
where clause; the onDelete CASCADE foreign key then removes every grade row
whose owning student was deleted. -/
def StudentsService.deleteAllStudents (db : StudentsDB) : StudentsDB :=
  { db with
    students := []
    grades := db.grades.filter (fun g => ! db.students.any (fun s => s.id == g.studentId)) }

/-- SeedService.insertNewStudents, step 2: one StudentsService.create call
per entry of the seed data. -/
def insertSeedStudents (db : StudentsDB) (data : List CreateStudentDto) :
    StudentsDB :=
  data.foldl (fun d dto => (StudentsService.create d dto).1) db

/-- SeedService.runSeed: delete all students, insert the seed data, answer
SEED EXECUTED. -/
def SeedService.runSeed (db : StudentsDB) (data : List CreateStudentDto) :
    StudentsDB × String :=
  (insertSeedStudents (StudentsService.deleteAllStudents db) data, "SEED EXECUTED")

/-- SeedController.executeSeed behind the route machinery: the handler runs
exactly when the declared guards admit the request. -/
def SeedController.executeSeed (req : ReqCtx) (db : StudentsDB)
    (data : List CreateStudentDto) : Option (StudentsDB × String) :=
  if routeAdmits seedRouteGuards seedRouteRoles req then
    some (SeedService.runSeed db data)
  else
    none

/-! ## Concrete instances used by the claim theorems and witnesses -/

/-- Projection used to read the persisted nickname out of a successful
update outcome. -/
def updateOutcomeNickname : UpdateOutcome → Option String
  | .ok s _ => some s.nickname
  | _ => none

/-- Database and inputs for the C3 run: create the student of the spec
example, then update only the age. -/
def c3CreateDto : CreateStudentDto :=
  ⟨"Juan Perez", some 20, "juan.perez@mail.com", "Male", [], none⟩

/-- Age-only patch for the C3 run. -/
def c3AgePatch : UpdateStudentDto := ⟨none, some 21, none, none, none, none⟩

/-- Database for the C2 witness: one student owning one Math grade. -/
def c2Db : StudentsDB :=
  ⟨[⟨0, "Leo Ruiz", some 19, "leo@mail.com", "leo_ruiz19", "Male", []⟩],
   [⟨0, "Math", "4.5", 0⟩], 1, 1⟩

/-- Update input for the C2 witness: replace the grades list. -/
def c2Patch : UpdateStudentDto := ⟨none, none, none, none, none, some [⟨"Science", "4.0"⟩]⟩

/-- Failure injection for the C2 witness: the save step fails, after the
grade-delete step and before the commit. -/
def c2Fail : FailSpec := ⟨none, some (DbError.other "disk full"), none, false⟩

/-- Database for the C9 runs: one student, no grades. -/
def c9Db : StudentsDB :=
  ⟨[⟨0, "Ana Diaz", some 20, "ana@mail.com", "ana_diaz20", "Female", []⟩], [], 1, 1⟩

/-- Update input for the C9 runs: rename only. -/
def c9Patch : UpdateStudentDto := ⟨some "Ana Lopez", none, none, none, none, none⟩

/-- Database for the C7 runs: one student, no grades. -/
def c7Db : StudentsDB :=
  ⟨[⟨0, "Rex Mora", some 22, "rex@mail.com", "rex_mora22", "Male", []⟩], [], 1, 1⟩

/-- Update input for the C7 runs: rename only. -/
def c7Patch : UpdateStudentDto := ⟨some "Rex Ortiz", none, none, none, none, none⟩

/-- Database for the C4 witness: one student owning the Math grade of the
spec example. -/
def c4Db : StudentsDB :=
  ⟨[⟨0, "Mia Sol", some 20, "mia@mail.com", "mia_sol20", "Female", []⟩],
   [⟨0, "Math", "4.5", 0⟩], 1, 1⟩

/-- Update input for the C4 witness: replace the grades by Science and Art,
as in the spec example. -/
def c4Patch : UpdateStudentDto :=
  ⟨none, none, none, none, none, some [⟨"Science", "4.0"⟩, ⟨"Art", "3.5"⟩]⟩

/-- Database after a first registration of Ana@Mail.com, used by the C6
runs. -/
def c6Db : AuthDB :=
  (AuthService.create (fun p => p) ⟨[], 0⟩ ⟨"Ana@Mail.com", "Ana", "pw"⟩).1

/-- Directory for the C8 witness: one user with a stored hash. -/
def c8Db : AuthDB := ⟨[⟨1, "a@mail.com", "A", some "hashpw", true, ["teacher"]⟩], 2⟩

/-- Database for the C10 witness: one student owning one grade. -/
def c10Db : StudentsDB :=
  ⟨[⟨0, "Gus Fring", some 33, "gus@mail.com", "gus_fring33", "Male", []⟩],
   [⟨0, "Math", "4.5", 0⟩], 1, 1⟩

/-! ## Claim C1 — role gate of the access policy guard -/

/-- C1: the claim says the role gate denies with Forbidden unless the
authenticated account's role set meets the declared permitted set.  The
implemented guard is a stub that returns true unconditionally, contradicting
both the spec and the intended behaviour written out in the guard's own
comment block: a route declaring roles admin with a caller holding only the
teacher role is let through instead of receiving Forbidden.  The documented
gate (roleGateDocumented) does deny that caller and does admit one holding
the admin role. -/
theorem c1_role_guard_always_allows :
    UserRoleGuard.canActivate (some ["admin"]) ["teacher"] = true
  ∧ roleGateDocumented (some ["admin"]) ["teacher"] = false
  ∧ roleGateDocumented (some ["admin"]) ["teacher", "admin"] = true := by
  refine ⟨rfl, by decide, by decide⟩

/-! ## Claim C3 — nickname derivation on create and update -/

/-- C3: the claim says the persisted nickname is recomputed on every create
AND every update as the normalized derivation of the merged name and age.
Create does satisfy it (name Juan Perez, age 20 persists juan_perez20), but
the BeforeUpdate hook derives from the CURRENT nickname, not from the name:
updating the age to 21 persists juan_perez2021 — the old age stays glued to
the base and the new age is appended — while the claimed derivation (and the
example in the hook's own doc comment) is juan_perez21. -/
theorem c3_nickname_update_appends_age_again :
    (StudentsService.create ⟨[], [], 0, 0⟩ c3CreateDto).2.nickname = "juan_perez20"
  ∧ updateOutcomeNickname
      (StudentsService.update (StudentsService.create ⟨[], [], 0, 0⟩ c3CreateDto).1
        0 c3AgePatch noFail).outcome = some "juan_perez2021"
  ∧ claimedNicknameDerivation "Juan Perez" (some 21) = "juan_perez21"
  ∧ ("juan_perez2021" : String) ≠ claimedNicknameDerivation "Juan Perez" (some 21) := by
  refine ⟨by decide, by decide, by decide, by decide⟩

/-! ## Claim C2 — rollback on any mid-transaction failure -/

/-- C2: if any step inside the update transaction fails (grade delete,
save of the merged record with its re-inserted grades, or commit), the
durable database afterwards is exactly the database before the call — in
particular the record's original grade collection is intact and no
deleted-but-not-reinserted state is durable. -/
theorem c2_update_failure_rolls_back (db : StudentsDB) (id : Nat)
    (dto : UpdateStudentDto) (fs : FailSpec) (e : DbError)
    (hfail : firstInjected dto fs = some e) :
    (StudentsService.update db id dto fs).db = db := by
  obtain ⟨n, a, em, ge, su, gr⟩ := dto
  obtain ⟨fd, fsv, fc, fr⟩ := fs
  cases gr <;> cases fd <;> cases fsv <;> cases fc <;> cases fr <;>
    simp_all [StudentsService.update, StudentsService.catchPath, firstInjected] <;>
    (split <;> rfl)

/-- Witness for C2 at the scenario of the spec: failure injected after the
grade delete and before the commit; the durable database, Math grade
included, is unchanged. -/
theorem c2_update_failure_rolls_back_witness :
    (StudentsService.update c2Db 0 c2Patch c2Fail).db = c2Db :=
  c2_update_failure_rolls_back c2Db 0 c2Patch c2Fail (DbError.other "disk full") rfl

/-! ## Claim C9 — release of the query runner on every exit path -/

/-- C9 counterexample: the claim says the query runner is released on every
exit path, including when the rollback step itself raises.  In the code the
release after rollbackTransaction is on the next statement, not in a finally
block: when the save step fails and the rollback then throws, the run leaves
the transaction scope with the runner acquired and never released. -/
theorem c9_release_skipped_when_rollback_throws :
    (StudentsService.update c9Db 0 c9Patch
        ⟨none, some (DbError.other "connection reset"), none, true⟩).acquired = true
  ∧ (StudentsService.update c9Db 0 c9Patch
        ⟨none, some (DbError.other "connection reset"), none, true⟩).released = false := by
  refine ⟨by decide, by decide⟩

/-- C9 amended: on every exit path on which rollbackTransaction does not
itself raise — successful commit, and rollback after a failure at the
delete, save or commit step — an acquired query runner is released. -/
theorem c9_release_when_rollback_succeeds (db : StudentsDB) (id : Nat)
    (dto : UpdateStudentDto) (fs : FailSpec)
    (hrb : fs.failRollback = false) :
    (StudentsService.update db id dto fs).released
      = (StudentsService.update db id dto fs).acquired := by
  obtain ⟨n, a, em, ge, su, gr⟩ := dto
  obtain ⟨fd, fsv, fc, fr⟩ := fs
  simp only at hrb
  subst hrb
  cases gr <;> cases fd <;> cases fsv <;> cases fc <;>
    simp_all [StudentsService.update, StudentsService.catchPath] <;>
    (split <;> rfl)

/-- Witness for C9 amended: failure at the save step with a working
rollback; the runner is released exactly because it was acquired. -/
theorem c9_release_when_rollback_succeeds_witness :
    (StudentsService.update c9Db 0 c9Patch
        ⟨none, some (DbError.other "connection reset"), none, false⟩).released
      = (StudentsService.update c9Db 0 c9Patch
        ⟨none, some (DbError.other "connection reset"), none, false⟩).acquired :=
  c9_release_when_rollback_succeeds c9Db 0 c9Patch
    ⟨none, some (DbError.other "connection reset"), none, false⟩ rfl

/-! ## Claim C7 — propagation of failures to the caller -/

/-- C7 counterexample: the claim says every failure during create or update
is surfaced as a typed failure and no failure path returns silently as
success.  handleException rethrows only Postgres error code 23505; when the
save step fails with any other persistence error the catch block logs it,
rolls back, releases, and handleException returns normally — the update call
completes with no result and no error (undefined). -/
theorem c7_non_unique_failure_swallowed :
    (StudentsService.update c7Db 0 c7Patch
        ⟨none, some (DbError.other "db connection lost"), none, false⟩).outcome
      = UpdateOutcome.silent := by
  decide

/-- C7 amended: a failure inside the update transaction is surfaced to the
caller only when it is a unique-constraint violation (Postgres 23505), as an
InternalServerErrorException carrying error.detail; any other failure is
logged and the call returns undefined — no result and no error. -/
theorem c7_only_unique_violations_surfaced (db : StudentsDB) (id : Nat)
    (dto : UpdateStudentDto) (fs : FailSpec) (e : DbError) (s0 : StudentRow)
    (hfind : db.students.find? (fun s => s.id == id) = some s0)
    (hrb : fs.failRollback = false)
    (hfail : firstInjected dto fs = some e) :
    (StudentsService.update db id dto fs).outcome
      = StudentsService.handleExceptionOutcome e := by
  obtain ⟨n, a, em, ge, su, gr⟩ := dto
  obtain ⟨fd, fsv, fc, fr⟩ := fs
  simp only at hrb
  subst hrb
  cases gr <;> cases fd <;> cases fsv <;> cases fc <;>
    simp_all [StudentsService.update, StudentsService.catchPath, firstInjected]

/-- Witness for C7 amended: a unique violation at the save step is surfaced
as the internal error carrying the detail string. -/
theorem c7_only_unique_violations_surfaced_witness :
    (StudentsService.update c7Db 0 c7Patch
        ⟨none, some (DbError.uniqueViolation "Key (email)=(rex@mail.com) already exists."),
          none, false⟩).outcome
      = UpdateOutcome.thrownInternal "Key (email)=(rex@mail.com) already exists." :=
  c7_only_unique_violations_surfaced c7Db 0 c7Patch
    ⟨none, some (DbError.uniqueViolation "Key (email)=(rex@mail.com) already exists."),
      none, false⟩
    (DbError.uniqueViolation "Key (email)=(rex@mail.com) already exists.")
    ⟨0, "Rex Mora", some 22, "rex@mail.com", "rex_mora22", "Male", []⟩ rfl rfl rfl

/-! ## Claim C4 — wholesale replacement of the owned grade collection -/

/-- Every fresh grade row built from the inputs carries the owning student
id. -/
theorem assignGradeIds_mem_studentId (sid : Nat) :
    ∀ (nid : Nat) (gs : List GradeInput), ∀ g ∈ assignGradeIds nid sid gs,
      g.studentId = sid := by
  intro nid gs
  induction gs generalizing nid with
  | nil => intro g hg; cases hg
  | cons gi rest ih =>
    intro g hg
    cases hg with
    | head => rfl
    | tail _ h => exact ih _ g h

/-- Every fresh grade row built from the inputs has an id at least the
starting counter value. -/
theorem assignGradeIds_mem_le (sid : Nat) :
    ∀ (nid : Nat) (gs : List GradeInput), ∀ g ∈ assignGradeIds nid sid gs,
      nid ≤ g.id := by
  intro nid gs
  induction gs generalizing nid with
  | nil => intro g hg; cases hg
  | cons gi rest ih =>
    intro g hg
    cases hg with
    | head => exact Nat.le_refl _
    | tail _ h => exact Nat.le_of_succ_le (ih (nid + 1) g h)

/-- Filtering the fresh rows by the owning id keeps all of them. -/
theorem assignGradeIds_filter_self (sid : Nat) :
    ∀ (nid : Nat) (gs : List GradeInput),
      (assignGradeIds nid sid gs).filter (fun g => g.studentId == sid)
        = assignGradeIds nid sid gs := by
  intro nid gs
  induction gs generalizing nid with
  | nil => rfl
  | cons gi rest ih =>
    simp [assignGradeIds, List.filter, ih]

/-- Rows surviving the delete of every row owned by the student cannot be
owned by the student. -/
theorem gradeFilter_ne_then_eq_nil (id : Nat) :
    ∀ l : List GradeRow,
      (l.filter (fun g => g.studentId != id)).filter (fun g => g.studentId == id)
        = [] := by
  intro l
  induction l with
  | nil => rfl
  | cons g rest ih =>
    by_cases h : g.studentId = id
    · simp only [List.filter_cons, bne_iff_ne, ne_eq, h, not_true_eq_false,
        decide_False, if_false]
      exact ih
    · simp only [List.filter_cons, bne_iff_ne, ne_eq, h, not_false_eq_true,
        decide_True, if_true, beq_iff_eq]
      simp [ih]

/-- C4: in an update in which a grades list is supplied (including the empty
list) and no step fails, the grade rows owned by the record afterwards are
exactly the fresh rows built from the supplied inputs, and none of them
reuses the id of any previously owned row (id freshness of the generated
keys given by hfresh); when no grades list is supplied, the grade table is
unchanged. -/
theorem c4_grades_replaced_wholesale (db : StudentsDB) (id : Nat)
    (dto : UpdateStudentDto) (s0 : StudentRow)
    (hfind : db.students.find? (fun s => s.id == id) = some s0)
    (hfresh : ∀ g ∈ db.grades, g.id < db.nextGradeId) :
    (∀ gs, dto.grades = some gs →
      ownedGrades (StudentsService.update db id dto noFail).db id
          = assignGradeIds db.nextGradeId id gs
      ∧ ∀ g ∈ ownedGrades db id,
          ∀ g2 ∈ ownedGrades (StudentsService.update db id dto noFail).db id,
            g2.id ≠ g.id)
  ∧ (dto.grades = none →
      (StudentsService.update db id dto noFail).db.grades = db.grades) := by
  constructor
  · intro gs hgs
    have hrun :
        (StudentsService.update db id dto noFail).db.grades
          = db.grades.filter (fun g => g.studentId != id)
              ++ assignGradeIds db.nextGradeId id gs := by
      simp [StudentsService.update, hfind, hgs, noFail]
    have howned :
        ownedGrades (StudentsService.update db id dto noFail).db id
          = assignGradeIds db.nextGradeId id gs := by
      rw [ownedGrades, hrun, List.filter_append, gradeFilter_ne_then_eq_nil,
        assignGradeIds_filter_self]
      rfl
    refine ⟨howned, ?_⟩
    intro g hg g2 hg2
    rw [howned] at hg2
    have hge : db.nextGradeId ≤ g2.id := assignGradeIds_mem_le id db.nextGradeId gs g2 hg2
    have hlt : g.id < db.nextGradeId := by
      have : g ∈ db.grades := List.mem_of_mem_filter hg
      exact hfresh g this
    omega
  · intro hnone
    simp [StudentsService.update, hfind, hnone, noFail]

/-- Witness for C4 at the scenario of the spec: after the update the owned
collection holds exactly the two fresh rows. -/
theorem c4_grades_replaced_wholesale_witness :
    ownedGrades (StudentsService.update c4Db 0 c4Patch noFail).db 0
      = assignGradeIds 1 0 [⟨"Science", "4.0"⟩, ⟨"Art", "3.5"⟩] :=
  ((c4_grades_replaced_wholesale c4Db 0 c4Patch
      ⟨0, "Mia Sol", some 20, "mia@mail.com", "mia_sol20", "Female", []⟩
      rfl (by decide)).1 [⟨"Science", "4.0"⟩, ⟨"Art", "3.5"⟩] rfl).1

/-! ## Claim C5 — email normalization before comparison and storage -/

/-- A list with no element satisfying the test finds nothing. -/
theorem findP_none_of_any_false {α : Type} (p : α → Bool) :
    ∀ l : List α, l.any p = false → l.find? p = none := by
  intro l
  induction l with
  | nil => intro _; rfl
  | cons x rest ih =>
    intro h
    simp only [List.any_cons, Bool.or_eq_false_iff] at h
    simp only [List.find?_cons, h.1]
    exact ih h.2

/-- Searching an appended list skips a left part that finds nothing. -/
theorem findP_append_left_none {α : Type} (p : α → Bool) :
    ∀ l1 l2 : List α, l1.find? p = none → (l1 ++ l2).find? p = l2.find? p := by
  intro l1 l2
  induction l1 with
  | nil => intro _; rfl
  | cons x rest ih =>
    intro h
    simp only [List.find?_cons] at h
    cases hx : p x with
    | true => rw [hx] at h; cases h
    | false =>
      rw [hx] at h
      simp only [List.cons_append, List.find?_cons, hx]
      exact ih h

/-- C5 counterexample: the claim says normalization is applied before every
comparison, so a login presented with a case variant of a registered email
locates the account.  Registering with Ana@Mail.com stores the normalized
ana@mail.com, but login looks the supplied email up verbatim: presenting the
very string used at registration (a case variant of the stored email) fails
with NotFound. -/
theorem c5_login_case_variant_not_found :
    (AuthService.create (fun p => p) ⟨[], 0⟩
        ⟨"Ana@Mail.com", "Ana", "pw"⟩).1.users.map (fun u => u.email)
      = ["ana@mail.com"]
  ∧ AuthService.login (fun p h => p == h)
      (AuthService.create (fun p => p) ⟨[], 0⟩ ⟨"Ana@Mail.com", "Ana", "pw"⟩).1
      "Ana@Mail.com" "pw"
      = LoginOutcome.notFound "User Ana@Mail.com not found" := by
  refine ⟨by decide, by decide⟩

/-- C5 amended: normalization (lowercase, trim) is applied to the email
before storage on every create and update, but not to the email supplied at
login; the login lookup therefore locates a freshly registered account
exactly under the stored normalized form, and any supplied string differing
from that normalized form (case or whitespace variants included) that
matches no other stored row fails with NotFound. -/
theorem c5_normalization_only_on_storage (hashFn : String → String)
    (verify : String → String → Bool) (db : AuthDB) (dto : CreateUserDto)
    (pwd : String)
    (hnew : db.users.any
      (fun u => u.email == User.checkFieldsBeforeChanges dto.email) = false) :
    ((AuthService.create hashFn db dto).1.users.find?
        (fun u => u.email == User.checkFieldsBeforeChanges dto.email)
      = some ⟨db.nextUserId, User.checkFieldsBeforeChanges dto.email,
          dto.fullName, some (hashFn dto.password), true, ["teacher"]⟩)
  ∧ ∀ v, db.users.any (fun u => u.email == v) = false →
      v ≠ User.checkFieldsBeforeChanges dto.email →
      AuthService.login verify (AuthService.create hashFn db dto).1 v pwd
        = LoginOutcome.notFound ("User " ++ v ++ " not found") := by
  have hcreate :
      (AuthService.create hashFn db dto).1.users
        = db.users ++ [⟨db.nextUserId, User.checkFieldsBeforeChanges dto.email,
            dto.fullName, some (hashFn dto.password), true, ["teacher"]⟩] := by
    simp [AuthService.create, hnew]
  constructor
  · rw [hcreate,
      findP_append_left_none _ _ _ (findP_none_of_any_false _ _ hnew)]
    simp [List.find?_cons]
  · intro v hvany hvne
    have hnone :
        (AuthService.create hashFn db dto).1.users.find?
          (fun u => u.email == v) = none := by
      rw [hcreate,
        findP_append_left_none _ _ _ (findP_none_of_any_false _ _ hvany)]
      simp [List.find?_cons, Ne.symm hvne]
    simp [AuthService.login, hnone]

/-- Witness for C5 amended at a concrete registration: the normalized email
locates the stored row, and the mixed-case form used at registration fails
with NotFound. -/
theorem c5_normalization_only_on_storage_witness :
    ((AuthService.create (fun p => p) ⟨[], 0⟩
        ⟨"Ana@Mail.com", "Ana", "pw"⟩).1.users.find?
        (fun u => u.email == User.checkFieldsBeforeChanges "Ana@Mail.com")
      = some ⟨0, User.checkFieldsBeforeChanges "Ana@Mail.com", "Ana",
          some "pw", true, ["teacher"]⟩)
  ∧ AuthService.login (fun p h => p == h)
      (AuthService.create (fun p => p) ⟨[], 0⟩ ⟨"Ana@Mail.com", "Ana", "pw"⟩).1
      "Ana@Mail.com" "pw"
      = LoginOutcome.notFound ("User " ++ "Ana@Mail.com" ++ " not found") := by
  have h := c5_normalization_only_on_storage (fun p => p) (fun p h => p == h)
    ⟨[], 0⟩ ⟨"Ana@Mail.com", "Ana", "pw"⟩ "pw" rfl
  exact ⟨h.1, h.2 "Ana@Mail.com" rfl (by decide)⟩

/-! ## Claim C6 — surfacing of duplicate-email registration failures -/

/-- C6 counterexample: the claim says a duplicate email surfaces as a
conflict failure with a generic, detail-free outward message, the database
detail being only logged.  Registering the same normalized email twice in
fact throws an InternalServerErrorException whose outward message IS the
database constraint-violation detail, registered email included — the
persistence-layer internals are returned to the caller verbatim, and no
conflict-typed outcome exists in the service. -/
theorem c6_duplicate_email_leaks_detail :
    (AuthService.create (fun p => p) c6Db ⟨"ana@mail.com", "Ana Two", "pw2"⟩).2
      = RegisterOutcome.thrownInternal
          "Key (email)=(ana@mail.com) already exists." := by
  decide

/-- C6 amended: a registration hitting a duplicate normalized email leaves
the directory unchanged and is surfaced as an InternalServerErrorException
whose outward message is exactly the database constraint-violation detail
(the error is also logged server-side before the throw). -/
theorem c6_duplicate_email_internal_error_with_detail
    (hashFn : String → String) (db : AuthDB) (dto : CreateUserDto)
    (hdup : db.users.any
      (fun u => u.email == User.checkFieldsBeforeChanges dto.email) = true) :
    (AuthService.create hashFn db dto).2
      = RegisterOutcome.thrownInternal
          (pgDuplicateDetail (User.checkFieldsBeforeChanges dto.email))
  ∧ (AuthService.create hashFn db dto).1 = db := by
  constructor
  · simp [AuthService.create, hdup, AuthService.handleExceptionOutcome]
  · simp [AuthService.create, hdup]

/-- Witness for C6 amended at the concrete duplicate registration. -/
theorem c6_duplicate_email_internal_error_with_detail_witness :
    (AuthService.create (fun p => p) c6Db ⟨"ana@mail.com", "Ana Two", "pw2"⟩).2
      = RegisterOutcome.thrownInternal
          (pgDuplicateDetail (User.checkFieldsBeforeChanges "ana@mail.com")) :=
  (c6_duplicate_email_internal_error_with_detail (fun p => p) c6Db
    ⟨"ana@mail.com", "Ana Two", "pw2"⟩ (by decide)).1

/-! ## Claim C8 — login outcomes -/

/-- C8: for every login attempt, an email matching no stored row fails with
NotFound; a matching row whose stored hash rejects the supplied password
(under the bcrypt compareSync collaborator) fails with Unauthorized; and on
a match the call returns the selected account fields with the password
removed, together with a token freshly signed over the account id and
email. -/
theorem c8_login_outcomes (verify : String → String → Bool) (db : AuthDB)
    (email pwd : String) :
    (db.users.find? (fun u => u.email == email) = none →
      AuthService.login verify db email pwd
        = LoginOutcome.notFound ("User " ++ email ++ " not found"))
  ∧ (∀ u, db.users.find? (fun u => u.email == email) = some u →
      verify pwd (u.password.getD "") = false →
      AuthService.login verify db email pwd
        = LoginOutcome.unauthorized "Email or password incorrect")
  ∧ (∀ u, db.users.find? (fun u => u.email == email) = some u →
      verify pwd (u.password.getD "") = true →
      AuthService.login verify db email pwd
        = LoginOutcome.ok ⟨u.id, u.email, none⟩
            (AuthService.getJwtToken ⟨u.id, u.email⟩)) := by
  refine ⟨?_, ?_, ?_⟩
  · intro h
    simp [AuthService.login, h]
  · intro u hu hv
    simp [AuthService.login, hu, hv]
  · intro u hu hv
    simp [AuthService.login, hu, hv]

/-- Witness for C8 on the success branch at a concrete directory: correct
credentials return the password-free view plus the signed token. -/
theorem c8_login_outcomes_witness :
    AuthService.login (fun p h => p == h) c8Db "a@mail.com" "hashpw"
      = LoginOutcome.ok ⟨1, "a@mail.com", none⟩
          (AuthService.getJwtToken ⟨1, "a@mail.com"⟩) :=
  (c8_login_outcomes (fun p h => p == h) c8Db "a@mail.com" "hashpw").2.2
    ⟨1, "a@mail.com", "A", some "hashpw", true, ["teacher"]⟩ rfl rfl

/-! ## Claim C10 — the seed endpoint is unguarded and reseeds -/

/-- A list in which the test fails everywhere filters to nothing. -/
theorem filterP_nil_of_all_false {α : Type} (p : α → Bool) :
    ∀ l : List α, (∀ a ∈ l, p a = false) → l.filter p = [] := by
  intro l
  induction l with
  | nil => intro _; rfl
  | cons x rest ih =>
    intro h
    rw [List.filter_cons, h x (List.mem_cons_self x rest)]
    exact ih (fun a ha => h a (List.mem_cons_of_mem x ha))

/-- C10: the seed route declares no guard at all, so every request —
authenticated or not, whatever its roles — reaches the handler; the handler
deletes every student row (the cascade removing every grade row, given
referential integrity of the grade foreign keys, hFK), inserts the
predefined seed data through the create operation, and answers SEED
EXECUTED. -/
theorem c10_seed_unguarded_delete_and_reseed (req : ReqCtx) (db : StudentsDB)
    (data : List CreateStudentDto)
    (hFK : ∀ g ∈ db.grades, db.students.any (fun s => s.id == g.studentId) = true) :
    SeedController.executeSeed req db data
      = some (insertSeedStudents ⟨[], [], db.nextStudentId, db.nextGradeId⟩ data,
          "SEED EXECUTED") := by
  have hdel : StudentsService.deleteAllStudents db
      = ⟨[], [], db.nextStudentId, db.nextGradeId⟩ := by
    unfold StudentsService.deleteAllStudents
    have : db.grades.filter
        (fun g => ! db.students.any (fun s => s.id == g.studentId)) = [] := by
      refine filterP_nil_of_all_false _ _ (fun g hg => ?_)
      rw [hFK g hg]
      rfl
    rw [this]
  simp [SeedController.executeSeed, SeedService.runSeed, routeAdmits,
    seedRouteGuards, hdel]

/-- Witness for C10: a fully unauthenticated request with no roles still
executes the bulk delete-and-reseed and receives SEED EXECUTED. -/
theorem c10_seed_unguarded_delete_and_reseed_witness :
    SeedController.executeSeed ⟨false, []⟩ c10Db []
      = some (insertSeedStudents ⟨[], [], 1, 1⟩ [], "SEED EXECUTED") :=
  c10_seed_unguarded_delete_and_reseed ⟨false, []⟩ c10Db [] (by decide)
